import Mathlib

/-!
# video-transcode-queue: the HTTP handlers of `video_backend_api/api_server.go`

A shallow embedding of the four request handlers (`getVideoList`,
`getVideoDetail`, `createVideo`, `uploadVideoFile`) and of the library calls
they make, followed by the properties of the handlers.

A handler is a state transformer over `State` (the files on disk, the calls
made so far, the responses written so far) that either returns or stops the
process (`glog.Fatalln`).  Collaborators whose code is outside
`api_server.go` (the persistence functions, gin's JSON binding, the faults
of the operating system) are the fields of `Env`.
-/

namespace VideoBackendApi

/-! ## Data model -/

/-- Modelled from the spec: the `Video` record type is declared outside
`api_server.go`; the spec gives it an integer `id` and a string `title`,
the only field the handlers read being `Title`. -/
structure Video where
  ID : Int
  Title : String
  deriving DecidableEq

/-- Values placed in a `gin.H` response body by the handlers. -/
inductive JSONValue where
  | str (s : String)
  | int (n : Int)
  | video (v : Video)
  | videos (vs : List Video)
  deriving DecidableEq

/-- A response written by `c.JSON(status, gin.H{...})`: entries in source order. -/
structure Response where
  status : Nat
  body : List (String × JSONValue)
  deriving DecidableEq

def StatusOK : Nat := 200

def StatusBadRequest : Nat := 400

/-- The keys of a response body. -/
def Response.keys (r : Response) : List String := r.body.map Prod.fst

/-- The value a response body carries under a key. -/
def Response.get (r : Response) (key : String) : Option JSONValue :=
  (r.body.find? (fun e => e.1 == key)).map Prod.snd

/-- Package-level variables set by `loadEnvironmentVariables`. -/
structure Config where
  pgDb : String
  pgUser : String
  pgPassword : String
  pgHost : String
  queueTopic : String
  uploadFolderPath : String

/-- The handle `GetDatabaseConnection(pgUser, pgPassword, pgHost, pgDb)` returns. -/
structure Connection where
  user : String
  password : String
  host : String
  db : String
  deriving DecidableEq

/-- A `multipart.FileHeader`: the client-supplied name and what `Open` gives. -/
structure FileHeader where
  Filename : String
  Open : Except String (List UInt8)

/-- The parts of an incoming request the handlers look at. -/
structure Request where
  /-- gin path parameters -/
  Params : List (String × String)
  /-- the raw request body -/
  Body : String
  /-- Go `r.Form` after parsing: query and body values -/
  Form : List (String × List String)
  /-- Go `r.MultipartForm.File`, or the error of parsing the multipart form -/
  MultipartForm : Except String (List (String × List FileHeader))

/-- The two kinds of `strconv.NumError`. -/
inductive NumError where
  | ErrSyntax
  | ErrRange
  deriving DecidableEq

/-- Collaborator calls, recorded in program order. -/
inductive Call where
  | ParseMultipartForm (maxMemory : Nat)
  | FormValue (key : String)
  | FormFile (key : String)
  | Param (key : String)
  | Atoi (s : String)
  | BindJSON
  | GetDatabaseConnection
  | GetVideoObjects
  | GetVideoObject (videoID : Int)
  | CreateVideoObject (video : Video)
  | Create (name : String)
  | Copy (dst : Option String)
  | Close (f : Option String)
  | Fatalln (msg : String)
  deriving DecidableEq

/-- What a handler can change: files on disk, calls made, responses written. -/
structure State where
  files : List (String × List UInt8)
  calls : List Call
  written : List Response

/-- Collaborators outside `api_server.go`. -/
structure Env where
  /-- Go `GetVideoObjects(connection)`: count and records, or an error -/
  GetVideoObjects : Connection → Except String (Int × List Video)
  /-- Go `GetVideoObject(videoID, connection)` -/
  GetVideoObject : Int → Connection → Except String Video
  /-- Go `CreateVideoObject(video, connection)` -/
  CreateVideoObject : Video → Connection → Except String Video
  /-- gin's JSON decoding of a request body into a `Video` -/
  BindJSON : String → Except String Video
  /-- the error `os.Create` reports for a path, if any -/
  createFault : String → Option String
  /-- a failing `io.Copy` to a path: bytes written before the error, and the error -/
  copyFault : String → List UInt8 → Option (Nat × String)

/-! ## Handler monad -/

/-- Result of running a handler: it returned, or the process exited. -/
inductive Exec (α : Type) where
  | ret (a : α) (s : State)
  | exit (code : Nat) (s : State)

/-- The state a run ends in. -/
def Exec.state {α : Type} : Exec α → State
  | .ret _ s => s
  | .exit _ s => s

/-- Whether the process was stopped. -/
def Exec.halted {α : Type} : Exec α → Bool
  | .ret _ _ => false
  | .exit _ _ => true

def Handler (α : Type) : Type := State → Exec α

def Handler.pure {α : Type} (a : α) : Handler α := fun s => .ret a s

def Handler.bind {α β : Type} (m : Handler α) (f : α → Handler β) : Handler β := fun s =>
  match m s with
  | .ret a s1 => f a s1
  | .exit c s1 => .exit c s1

instance : Monad Handler where
  pure := Handler.pure
  bind := Handler.bind

/-- Record a collaborator call. -/
def record (c : Call) : Handler Unit := fun s =>
  .ret () { s with calls := s.calls ++ [c] }

/-! ## Library calls -/

/-- Go `c.JSON(status, body)`: writes a response. -/
def JSON (status : Nat) (body : List (String × JSONValue)) : Handler Unit := fun s =>
  .ret () { s with written := s.written ++ [⟨status, body⟩] }

/-- Go `glog.Fatalln(...)`: logs, then `os.Exit(255)`. -/
def Fatalln (msg : String) : Handler Unit := fun s =>
  .exit 255 { s with calls := s.calls ++ [Call.Fatalln msg] }

/-- Go `url.Values` lookup `r.Form[key]`. -/
def lookupValues {β : Type} (key : String) : List (String × List β) → List β
  | [] => []
  | (k, vs) :: rest => if k = key then vs else lookupValues key rest

/-- Go `c.Request.ParseMultipartForm(maxMemory)`; its result is dropped by the caller.
The temporary files the library keeps for oversized parts are not tracked. -/
def ParseMultipartForm (_r : Request) (maxMemory : Nat) : Handler Unit :=
  record (Call.ParseMultipartForm maxMemory)

/-- The value `FormValue` returns: first value for the key, `""` when there is none. -/
def formValue (r : Request) (key : String) : String :=
  match lookupValues key r.Form with
  | v :: _ => v
  | [] => ""

/-- Go `c.Request.FormValue(key)`. -/
def FormValue (r : Request) (key : String) : Handler String := do
  record (Call.FormValue key)
  pure (formValue r key)

/-- The text of `http.ErrMissingFile`. -/
def ErrMissingFile : String := "http: no such file"

/-- What `FormFile` returns: the first file under the key, opened, with its
header; the parse error, the error of `Open`, or `ErrMissingFile` otherwise. -/
def formFile (r : Request) (key : String) : Except String (List UInt8 × FileHeader) :=
  match r.MultipartForm with
  | .error e => .error e
  | .ok files =>
    match lookupValues key files with
    | fh :: _ =>
      match fh.Open with
      | .ok f => .ok (f, fh)
      | .error e => .error e
    | [] => .error ErrMissingFile

/-- Go `c.Request.FormFile(key)`. -/
def FormFile (r : Request) (key : String) :
    Handler (Except String (List UInt8 × FileHeader)) := do
  record (Call.FormFile key)
  pure (formFile r key)

/-- Replace (or add) the contents of the file at a path. -/
def writeFile (name : String) (data : List UInt8) (files : List (String × List UInt8)) :
    List (String × List UInt8) :=
  (name, data) :: files.filter (fun e => e.1 ≠ name)

/-- Contents of the file at a path. -/
def readFile (name : String) : List (String × List UInt8) → Option (List UInt8)
  | [] => none
  | (k, d) :: rest => if k = name then some d else readFile name rest

/-- Go `os.Create(name)`: creates or truncates the file; `(outFile, err)`. -/
def Create (env : Env) (name : String) : Handler (Option String × Option String) := fun s =>
  let s1 := { s with calls := s.calls ++ [Call.Create name] }
  match env.createFault name with
  | some e => .ret (none, some e) s1
  | none => .ret (some name, none) { s1 with files := writeFile name [] s1.files }

/-- Go `io.Copy(outFile, file)`: `(written, err)`; a nil destination is `os.ErrInvalid`. -/
def Copy (env : Env) (outFile : Option String) (file : List UInt8) :
    Handler (Nat × Option String) := fun s =>
  let s1 := { s with calls := s.calls ++ [Call.Copy outFile] }
  match outFile with
  | none => .ret (0, some "invalid argument") s1
  | some name =>
    match env.copyFault name file with
    | some (n, e) =>
      .ret (min n file.length, some e) { s1 with files := writeFile name (file.take n) s1.files }
    | none => .ret (file.length, none) { s1 with files := writeFile name file s1.files }

/-- Go `outFile.Close()`, run as the deferred call when the handler returns. -/
def Close (outFile : Option String) : Handler Unit :=
  record (Call.Close outFile)

/-- Go `GetDatabaseConnection(pgUser, pgPassword, pgHost, pgDb)`. -/
def GetDatabaseConnection (user password host db : String) : Handler Connection := do
  record Call.GetDatabaseConnection
  pure ⟨user, password, host, db⟩

/-! ## `uploadVideoFile` -/

def uploadVideoFile (cfg : Config) (env : Env) (r : Request) : Handler Unit := do
  -- Setting the maximum form data size for big file upload
  ParseMultipartForm r (64 <<< 25)
  let videoID ← FormValue r "video_id"
  if videoID = "" then
    JSON StatusBadRequest [("message", .str "video_id is required")]
    return
  match ← FormFile r "upload" with
  | .error err =>
    JSON StatusBadRequest
      [("error", .str err), ("message", .str "Please upload file with 'upload' form field key.")]
    return
  | .ok (file, header) =>
    let filename := header.Filename
    let (outFile, err) ← Create env (cfg.uploadFolderPath ++ filename)
    if let some e := err then
      Fatalln ("Failed to write filesystem: " ++ e)
    -- defer outFile.Close(): runs at each return below, not on exit
    let (_, err) ← Copy env outFile file
    if let some e := err then
      Fatalln ("Failed to copy video file: " ++ e)
      JSON StatusBadRequest
        [("error", .str e),
         ("message", .str "File upload is having issues right now. Please try later.")]
      Close outFile
      return
    JSON StatusOK [("message", .str ("Video file uploaded. Transcoding now: " ++ videoID))]
    Close outFile

/-! ## `strconv.Atoi` (64-bit `int`) -/

def maxUint64 : Nat := 2 ^ 64 - 1

/-- The digit loop of `ParseUint(s, 10, 64)` over the remaining bytes, `n` so far. -/
def parseUintLoop : List Char → Nat → Nat × Option NumError
  | [], n => (n, none)
  | c :: cs, n =>
    if '0' ≤ c ∧ c ≤ '9' then
      let d := c.toNat - '0'.toNat
      if n ≥ maxUint64 / 10 + 1 then
        -- n*base overflows
        (maxUint64, some .ErrRange)
      else
        let n1 := n * 10 + d
        if n1 > maxUint64 then
          -- n+d overflows
          (maxUint64, some .ErrRange)
        else parseUintLoop cs n1
    else (0, some .ErrSyntax)

/-- Go `ParseUint(s, 10, 64)`. -/
def ParseUint (s : List Char) : Nat × Option NumError :=
  match s with
  | [] => (0, some .ErrSyntax)
  | _ => parseUintLoop s 0

/-- Go `ParseInt(s, 10, 0)` with 64-bit `int`. -/
def ParseInt (s : List Char) : Int × Option NumError :=
  match s with
  | [] => (0, some .ErrSyntax)
  | c :: rest =>
    let neg := c = '-'
    let s1 := if c = '+' ∨ c = '-' then rest else s
    match ParseUint s1 with
    | (_, some .ErrSyntax) => (0, some .ErrSyntax)
    | (un, _) =>
      let cutoff : Nat := 2 ^ 63
      if ¬ neg ∧ un ≥ cutoff then ((cutoff : Int) - 1, some .ErrRange)
      else if neg ∧ un > cutoff then (-(cutoff : Int), some .ErrRange)
      else if neg then (-(un : Int), none)
      else ((un : Int), none)

/-- The pair `strconv.Atoi(s)` returns. -/
def strconvAtoi (s : String) : Int × Option NumError := ParseInt s.toList

/-- Go `strconv.Atoi(s)`. -/
def Atoi (s : String) : Handler (Int × Option NumError) := do
  record (Call.Atoi s)
  pure (strconvAtoi s)

/-! ## gin context and persistence calls -/

/-- The value `c.Param(key)` returns: first matching path parameter, `""` when none. -/
def param (r : Request) (key : String) : String :=
  match r.Params.find? (fun e => e.1 = key) with
  | some e => e.2
  | none => ""

/-- Go `c.Param(key)`. -/
def Param (r : Request) (key : String) : Handler String := do
  record (Call.Param key)
  pure (param r key)

/-- Go `c.BindJSON(&videoSerializer)`; on a decode error gin has itself set the
status 400 that the handler then writes. -/
def BindJSON (env : Env) (r : Request) : Handler (Except String Video) := do
  record Call.BindJSON
  pure (env.BindJSON r.Body)

/-- Go `GetVideoObjects(connection)`. -/
def GetVideoObjects (env : Env) (connection : Connection) :
    Handler (Except String (Int × List Video)) := do
  record Call.GetVideoObjects
  pure (env.GetVideoObjects connection)

/-- Go `GetVideoObject(videoID, connection)`. -/
def GetVideoObject (env : Env) (videoID : Int) (connection : Connection) :
    Handler (Except String Video) := do
  record (Call.GetVideoObject videoID)
  pure (env.GetVideoObject videoID connection)

/-- Go `CreateVideoObject(video, connection)`. -/
def CreateVideoObject (env : Env) (video : Video) (connection : Connection) :
    Handler (Except String Video) := do
  record (Call.CreateVideoObject video)
  pure (env.CreateVideoObject video connection)

/-! ## `getVideoList`, `getVideoDetail`, `createVideo` -/

def getVideoList (cfg : Config) (env : Env) (_r : Request) : Handler Unit := do
  let connection ← GetDatabaseConnection cfg.pgUser cfg.pgPassword cfg.pgHost cfg.pgDb
  match ← GetVideoObjects env connection with
  | .error err =>
    JSON StatusBadRequest [("error", .str err)]
  | .ok (count, videos) =>
    JSON StatusOK [("count", .int count), ("results", .videos videos)]

def getVideoDetail (cfg : Config) (env : Env) (r : Request) : Handler Unit := do
  -- the error of Atoi is overwritten below before it is ever read
  let (videoID, _) ← Atoi (← Param r "id")
  let connection ← GetDatabaseConnection cfg.pgUser cfg.pgPassword cfg.pgHost cfg.pgDb
  match ← GetVideoObject env videoID connection with
  | .error err =>
    JSON StatusBadRequest [("error", .str err)]
  | .ok video =>
    JSON StatusOK [("data", .video video)]

def createVideo (cfg : Config) (env : Env) (r : Request) : Handler Unit := do
  match ← BindJSON env r with
  | .error err =>
    JSON StatusBadRequest [("error", .str err)]
    return
  | .ok videoSerializer =>
    let connection ← GetDatabaseConnection cfg.pgUser cfg.pgPassword cfg.pgHost cfg.pgDb
    match ← CreateVideoObject env videoSerializer connection with
    | .error err =>
      JSON StatusBadRequest [("error", .str err)]
      return
    | .ok videoSerializer =>
      JSON StatusOK
        [("title", .str videoSerializer.Title),
         ("message", .str "Object created. Please upload the file for this Video.")]

/-! ## Running a handler -/

/-- The state a request starts from: the files on disk, no call, no response. -/
def initial (files : List (String × List UInt8)) : State := ⟨files, [], []⟩

/-- The connection every handler opens under a configuration. -/
def connectionOf (cfg : Config) : Connection := ⟨cfg.pgUser, cfg.pgPassword, cfg.pgHost, cfg.pgDb⟩


/-! ## Concrete inputs -/

/-- A configuration whose upload directory has no trailing separator. -/
def cfgNoSlash : Config := ⟨"videos", "postgres", "secret", "localhost", "transcode", "/uploads"⟩

/-- A configuration whose upload directory ends in a separator. -/
def cfgSlash : Config := ⟨"videos", "postgres", "secret", "localhost", "transcode", "/uploads/"⟩

/-- A store holding one record, with identifier 1; no filesystem fault. -/
def envDemo : Env where
  GetVideoObjects := fun _ => .ok (1, [⟨1, "demo"⟩])
  GetVideoObject := fun videoID _ =>
    if videoID = 1 then .ok ⟨1, "demo"⟩ else .error "pg: no rows in result set"
  CreateVideoObject := fun video _ => .ok { video with ID := 2 }
  BindJSON := fun body =>
    if body = "\x7b\"title\":\"demo\"\x7d" then .ok ⟨0, "demo"⟩ else .error "invalid character"
  createFault := fun _ => none
  copyFault := fun _ _ => none

/-- The bytes of `"abc"`. -/
def abc : List UInt8 := [97, 98, 99]

/-- Upload of `clip.mp4` holding `"abc"` for `video_id=42`. -/
def reqUpload42 : Request :=
  ⟨[], "", [("video_id", ["42"])], .ok [("upload", [⟨"clip.mp4", .ok abc⟩])]⟩

/-- Upload with neither `video_id` nor a file. -/
def reqUploadBare : Request := ⟨[], "", [], .ok []⟩

/-- Upload of a file with no `video_id`. -/
def reqUploadNoId : Request := ⟨[], "", [], .ok [("upload", [⟨"clip.mp4", .ok abc⟩])]⟩

/-- Upload of a file with an empty `video_id`. -/
def reqUploadEmptyId : Request :=
  ⟨[], "", [("video_id", [""])], .ok [("upload", [⟨"clip.mp4", .ok abc⟩])]⟩

/-- Upload with `video_id=42` and no file. -/
def reqUploadNoFile : Request := ⟨[], "", [("video_id", ["42"])], .ok []⟩

/-- The demo store on a disk where `os.Create` fails on every path. -/
def envCreateFault : Env :=
  { envDemo with createFault := fun _ => some "permission denied" }

/-- The demo store on a disk where `io.Copy` fails after one byte. -/
def envCopyFault : Env :=
  { envDemo with copyFault := fun _ _ => some (1, "no space left on device") }

/-- A store that is unreachable. -/
def envDown : Env :=
  { envDemo with
    GetVideoObjects := fun _ => .error "connection refused"
    CreateVideoObject := fun _ _ => .error "connection refused" }

/-- A store whose one record has identifier 0. -/
def envZero : Env :=
  { envDemo with GetVideoObject := fun videoID _ =>
      if videoID = 0 then .ok ⟨0, "zero"⟩ else .error "pg: no rows in result set" }

/-- Request for the list of videos. -/
def reqList : Request := ⟨[], "", [], .error "request Content-Type isn't multipart/form-data"⟩

/-- Request for the video with path parameter `id`. -/
def reqDetail (id : String) : Request :=
  ⟨[("id", id)], "", [], .error "request Content-Type isn't multipart/form-data"⟩

/-- Request to create a video from a JSON body. -/
def reqCreate (body : String) : Request :=
  ⟨[], body, [], .error "request Content-Type isn't multipart/form-data"⟩


/-! ## Unfolding the handler monad -/

@[simp] theorem Handler.bind_apply {α β : Type} (m : Handler α) (f : α → Handler β) (s : State) :
    (m >>= f) s = match m s with
      | .ret a s1 => f a s1
      | .exit c s1 => .exit c s1 := rfl

@[simp] theorem Handler.pure_apply {α : Type} (a : α) (s : State) :
    (Pure.pure a : Handler α) s = .ret a s := rfl

/-- The run of `uploadVideoFile`, by cases on what the request carries and on
the faults of the filesystem. -/
theorem uploadVideoFile_run (cfg : Config) (env : Env) (r : Request) (s : State) :
    uploadVideoFile cfg env r s =
      if formValue r "video_id" = "" then
        .ret () { s with
          calls := s.calls ++ [Call.ParseMultipartForm (64 <<< 25), Call.FormValue "video_id"]
          written := s.written ++
            [⟨StatusBadRequest, [("message", .str "video_id is required")]⟩] }
      else
        match formFile r "upload" with
        | .error err =>
          .ret () { s with
            calls := s.calls ++ [Call.ParseMultipartForm (64 <<< 25), Call.FormValue "video_id",
              Call.FormFile "upload"]
            written := s.written ++
              [⟨StatusBadRequest, [("error", .str err),
                ("message", .str "Please upload file with 'upload' form field key.")]⟩] }
        | .ok (file, header) =>
          match env.createFault (cfg.uploadFolderPath ++ header.Filename) with
          | some e =>
            .exit 255 { s with
              calls := s.calls ++ [Call.ParseMultipartForm (64 <<< 25),
                Call.FormValue "video_id", Call.FormFile "upload",
                Call.Create (cfg.uploadFolderPath ++ header.Filename),
                Call.Fatalln ("Failed to write filesystem: " ++ e)] }
          | none =>
            match env.copyFault (cfg.uploadFolderPath ++ header.Filename) file with
            | some (n, e) =>
              .exit 255 { s with
                files := writeFile (cfg.uploadFolderPath ++ header.Filename) (file.take n)
                  (writeFile (cfg.uploadFolderPath ++ header.Filename) [] s.files)
                calls := s.calls ++ [Call.ParseMultipartForm (64 <<< 25),
                  Call.FormValue "video_id", Call.FormFile "upload",
                  Call.Create (cfg.uploadFolderPath ++ header.Filename),
                  Call.Copy (some (cfg.uploadFolderPath ++ header.Filename)),
                  Call.Fatalln ("Failed to copy video file: " ++ e)] }
            | none =>
              .ret () { s with
                files := writeFile (cfg.uploadFolderPath ++ header.Filename) file
                  (writeFile (cfg.uploadFolderPath ++ header.Filename) [] s.files)
                calls := s.calls ++ [Call.ParseMultipartForm (64 <<< 25),
                  Call.FormValue "video_id", Call.FormFile "upload",
                  Call.Create (cfg.uploadFolderPath ++ header.Filename),
                  Call.Copy (some (cfg.uploadFolderPath ++ header.Filename)),
                  Call.Close (some (cfg.uploadFolderPath ++ header.Filename))]
                written := s.written ++
                  [⟨StatusOK, [("message",
                    .str ("Video file uploaded. Transcoding now: " ++ formValue r "video_id"))]⟩] } := by
  by_cases hv : formValue r "video_id" = ""
  · simp [uploadVideoFile, ParseMultipartForm, FormValue, record, JSON, hv]
  · rcases hf : formFile r "upload" with err | ⟨file, header⟩
    · simp [uploadVideoFile, ParseMultipartForm, FormValue, FormFile, record, JSON, hv, hf]
    · rcases hc : env.createFault (cfg.uploadFolderPath ++ header.Filename) with _ | e
      · rcases hp : env.copyFault (cfg.uploadFolderPath ++ header.Filename) file with _ | ⟨n, e⟩
        · simp [uploadVideoFile, ParseMultipartForm, FormValue, FormFile, record, JSON, Create,
            Copy, Close, Fatalln, hv, hf, hc, hp]
        · simp [uploadVideoFile, ParseMultipartForm, FormValue, FormFile, record, JSON, Create,
            Copy, Fatalln, hv, hf, hc, hp]
      · simp [uploadVideoFile, ParseMultipartForm, FormValue, FormFile, record, JSON, Create,
          Copy, Fatalln, hv, hf, hc]


/-! ## Claims on `uploadVideoFile` -/

/-- C1: when the form value `video_id` is the empty string, whatever is
attached under `upload`, the handler writes exactly one response, a 400 whose
body is the single entry `message` = "video_id is required"; it makes no
`FormFile` call, no `os.Create` call, and leaves the files as they were. -/
theorem C1_missing_video_id (cfg : Config) (env : Env) (r : Request)
    (files : List (String × List UInt8)) (h : formValue r "video_id" = "") :
    (uploadVideoFile cfg env r (initial files)).state.written =
        [⟨400, [("message", .str "video_id is required")]⟩] ∧
      (uploadVideoFile cfg env r (initial files)).halted = false ∧
      (∀ key, Call.FormFile key ∉ (uploadVideoFile cfg env r (initial files)).state.calls) ∧
      (∀ name, Call.Create name ∉ (uploadVideoFile cfg env r (initial files)).state.calls) ∧
      (uploadVideoFile cfg env r (initial files)).state.files = files := by
  rw [uploadVideoFile_run]
  simp [h, initial, Exec.state, Exec.halted, StatusBadRequest]

theorem C1_missing_video_id_witness :
    (formValue reqUploadNoId "video_id" = "" ∧
      (uploadVideoFile cfgSlash envDemo reqUploadNoId (initial [])).state.written =
        [⟨400, [("message", .str "video_id is required")]⟩]) ∧
    (formValue reqUploadEmptyId "video_id" = "" ∧
      (uploadVideoFile cfgSlash envDemo reqUploadEmptyId (initial [])).state.written =
        [⟨400, [("message", .str "video_id is required")]⟩]) ∧
    (formValue reqUploadBare "video_id" = "" ∧
      (uploadVideoFile cfgSlash envDemo reqUploadBare (initial [])).state.files = []) :=
  ⟨⟨by decide, (C1_missing_video_id cfgSlash envDemo reqUploadNoId [] (by decide)).1⟩,
   ⟨by decide, (C1_missing_video_id cfgSlash envDemo reqUploadEmptyId [] (by decide)).1⟩,
   ⟨by decide, (C1_missing_video_id cfgSlash envDemo reqUploadBare [] (by decide)).2.2.2.2⟩⟩

/-- C2, as stated, fails: with no file under `upload` and no `video_id`, the
response is the 400 for the missing `video_id`, which has no `error` entry and
another `message`. -/
theorem C2_counterexample :
    formFile reqUploadBare "upload" = .error ErrMissingFile ∧
      (uploadVideoFile cfgSlash envDemo reqUploadBare (initial [])).state.written =
        [⟨400, [("message", .str "video_id is required")]⟩] ∧
      Response.get ⟨400, [("message", .str "video_id is required")]⟩ "error" = none ∧
      Response.get ⟨400, [("message", .str "video_id is required")]⟩ "message" ≠
        some (.str "Please upload file with 'upload' form field key.") :=
  ⟨rfl, by decide, by decide, by decide⟩

/-- C2 (amended): when `video_id` is non-empty and `FormFile("upload")` fails
with error `err`, the handler writes exactly one response, a 400 whose body is
`error` = `err` and `message` = "Please upload file with 'upload' form field
key."; it creates no file. -/
theorem C2_missing_file (cfg : Config) (env : Env) (r : Request)
    (files : List (String × List UInt8)) (err : String)
    (hv : formValue r "video_id" ≠ "") (hf : formFile r "upload" = .error err) :
    (uploadVideoFile cfg env r (initial files)).state.written =
        [⟨400, [("error", .str err),
          ("message", .str "Please upload file with 'upload' form field key.")]⟩] ∧
      (uploadVideoFile cfg env r (initial files)).halted = false ∧
      (∀ name, Call.Create name ∉ (uploadVideoFile cfg env r (initial files)).state.calls) ∧
      (uploadVideoFile cfg env r (initial files)).state.files = files := by
  rw [uploadVideoFile_run]
  simp [hv, hf, initial, Exec.state, Exec.halted, StatusBadRequest]

theorem C2_missing_file_witness :
    formValue reqUploadNoFile "video_id" ≠ "" ∧
      formFile reqUploadNoFile "upload" = .error "http: no such file" ∧
      (uploadVideoFile cfgSlash envDemo reqUploadNoFile (initial [])).state.written =
        [⟨400, [("error", .str "http: no such file"),
          ("message", .str "Please upload file with 'upload' form field key.")]⟩] :=
  ⟨by decide, rfl,
    (C2_missing_file cfgSlash envDemo reqUploadNoFile [] "http: no such file"
      (by decide) rfl).1⟩

/-- C3: with upload directory `/uploads`, `video_id=42` and the file
`clip.mp4` holding `"abc"`, creation and copy succeed and the response is the
200, yet the path handed to `os.Create` is `/uploadsclip.mp4`: that is the one
file on disk afterwards and nothing exists at `/uploads/clip.mp4`.  With the
directory written `/uploads/` the same request stores `/uploads/clip.mp4`
holding `"abc"`. -/
theorem C3_upload_missing_separator :
    formValue reqUpload42 "video_id" ≠ "" ∧
      envDemo.createFault (cfgNoSlash.uploadFolderPath ++ "clip.mp4") = none ∧
      envDemo.copyFault (cfgNoSlash.uploadFolderPath ++ "clip.mp4") abc = none ∧
      (uploadVideoFile cfgNoSlash envDemo reqUpload42 (initial [])).state.written =
        [⟨200, [("message", .str "Video file uploaded. Transcoding now: 42")]⟩] ∧
      (uploadVideoFile cfgNoSlash envDemo reqUpload42 (initial [])).state.calls =
        [Call.ParseMultipartForm 2147483648, Call.FormValue "video_id", Call.FormFile "upload",
          Call.Create "/uploadsclip.mp4", Call.Copy (some "/uploadsclip.mp4"),
          Call.Close (some "/uploadsclip.mp4")] ∧
      (uploadVideoFile cfgNoSlash envDemo reqUpload42 (initial [])).state.files =
        [("/uploadsclip.mp4", abc)] ∧
      readFile "/uploads/clip.mp4"
        (uploadVideoFile cfgNoSlash envDemo reqUpload42 (initial [])).state.files = none ∧
      (uploadVideoFile cfgSlash envDemo reqUpload42 (initial [])).state.files =
        [("/uploads/clip.mp4", abc)] := by
  decide

/-- C4: for every non-empty `video_id` value v with a file attached under
`upload` whose creation and copy succeed, the handler writes exactly one
response, a 200 whose body is the single entry `message` = "Video file
uploaded. Transcoding now: " followed by v; no persistence call is made and
the run is the same under any other persistence layer and JSON binding. -/
theorem C4_upload_success_response (cfg : Config) (env : Env) (r : Request)
    (files : List (String × List UInt8)) (v : String) (B : List UInt8) (header : FileHeader)
    (hv : formValue r "video_id" = v) (hne : v ≠ "")
    (hf : formFile r "upload" = .ok (B, header))
    (hc : env.createFault (cfg.uploadFolderPath ++ header.Filename) = none)
    (hp : env.copyFault (cfg.uploadFolderPath ++ header.Filename) B = none) :
    (uploadVideoFile cfg env r (initial files)).state.written =
        [⟨200, [("message", .str ("Video file uploaded. Transcoding now: " ++ v))]⟩] ∧
      (uploadVideoFile cfg env r (initial files)).halted = false ∧
      (∀ c ∈ (uploadVideoFile cfg env r (initial files)).state.calls,
        c ≠ Call.GetDatabaseConnection ∧ c ≠ Call.GetVideoObjects ∧
        (∀ videoID, c ≠ Call.GetVideoObject videoID) ∧
        (∀ video, c ≠ Call.CreateVideoObject video)) ∧
      (∀ env2 : Env, env2.createFault = env.createFault → env2.copyFault = env.copyFault →
        uploadVideoFile cfg env2 r (initial files) = uploadVideoFile cfg env r (initial files)) := by
  subst hv
  refine ⟨?_, ?_, ?_, ?_⟩
  · rw [uploadVideoFile_run]
    simp [hne, hf, hc, hp, initial, Exec.state, StatusOK]
  · rw [uploadVideoFile_run]
    simp [hne, hf, hc, hp, Exec.halted]
  · rw [uploadVideoFile_run]
    simp [hne, hf, hc, hp, initial, Exec.state]
  · intro env2 h1 h2
    rw [uploadVideoFile_run, uploadVideoFile_run, h1, h2]

theorem C4_upload_success_response_witness :
    (uploadVideoFile cfgSlash envDemo reqUpload42 (initial [])).state.written =
        [⟨200, [("message", .str ("Video file uploaded. Transcoding now: " ++ "42"))]⟩] :=
  (C4_upload_success_response cfgSlash envDemo reqUpload42 [] "42" abc ⟨"clip.mp4", .ok abc⟩
    (by decide) (by decide) rfl rfl rfl).1

/-- C8, as stated, fails: an upload with a file but no `video_id` gets a 400
whose body has the one key `message` and no `error` entry. -/
theorem C8_counterexample :
    (uploadVideoFile cfgSlash envDemo reqUploadNoId (initial [])).state.written =
        [⟨400, [("message", .str "video_id is required")]⟩] ∧
      Response.keys ⟨400, [("message", .str "video_id is required")]⟩ = ["message"] ∧
      Response.get ⟨400, [("message", .str "video_id is required")]⟩ "error" = none := by
  decide

/-- C8 (amended): every response `uploadVideoFile` writes is a 400 whose body
has shape {message} (written exactly when `video_id` is empty), a 400 whose
body has shape {error, message} (written only when `video_id` is non-empty),
or a 200 whose body has shape {message}; it writes at most one response. -/
theorem C8_upload_response_shapes (cfg : Config) (env : Env) (r : Request)
    (files : List (String × List UInt8)) :
    (uploadVideoFile cfg env r (initial files)).state.written.length ≤ 1 ∧
      (∀ resp ∈ (uploadVideoFile cfg env r (initial files)).state.written,
        (resp.status = 400 ∧ resp.keys = ["message"] ∧ formValue r "video_id" = "") ∨
        (resp.status = 400 ∧ resp.keys = ["error", "message"] ∧ formValue r "video_id" ≠ "") ∨
        (resp.status = 200 ∧ resp.keys = ["message"])) ∧
      (formValue r "video_id" = "" →
        ∃ resp ∈ (uploadVideoFile cfg env r (initial files)).state.written,
          resp.status = 400 ∧ resp.keys = ["message"]) := by
  rw [uploadVideoFile_run]
  by_cases hv : formValue r "video_id" = ""
  · simp [hv, initial, Exec.state, Response.keys, StatusBadRequest]
  · rcases hf : formFile r "upload" with err | ⟨file, header⟩
    · simp [hv, hf, initial, Exec.state, Response.keys, StatusBadRequest]
    · rcases hc : env.createFault (cfg.uploadFolderPath ++ header.Filename) with _ | e
      · rcases hp : env.copyFault (cfg.uploadFolderPath ++ header.Filename) file with _ | ⟨n, e⟩
        · simp [hv, hf, hc, hp, initial, Exec.state, Response.keys, StatusOK]
        · simp [hv, hf, hc, hp, initial, Exec.state]
      · simp [hv, hf, hc, initial, Exec.state]

theorem C8_upload_response_shapes_witness :
    (⟨400, [("message", .str "video_id is required")]⟩ : Response) ∈
        (uploadVideoFile cfgSlash envDemo reqUploadEmptyId (initial [])).state.written ∧
      (((⟨400, [("message", .str "video_id is required")]⟩ : Response).status = 400 ∧
          (⟨400, [("message", .str "video_id is required")]⟩ : Response).keys = ["message"] ∧
          formValue reqUploadEmptyId "video_id" = "") ∨
        ((⟨400, [("message", .str "video_id is required")]⟩ : Response).status = 400 ∧
          (⟨400, [("message", .str "video_id is required")]⟩ : Response).keys =
            ["error", "message"] ∧
          formValue reqUploadEmptyId "video_id" ≠ "") ∨
        ((⟨400, [("message", .str "video_id is required")]⟩ : Response).status = 200 ∧
          (⟨400, [("message", .str "video_id is required")]⟩ : Response).keys = ["message"])) :=
  ⟨by decide,
    (C8_upload_response_shapes cfgSlash envDemo reqUploadEmptyId []).2.1
      ⟨400, [("message", .str "video_id is required")]⟩ (by decide)⟩

/-- The success message and the copy-failure message differ in their first byte. -/
theorem transcoding_ne_issues (v : String) :
    "Video file uploaded. Transcoding now: " ++ v ≠
      "File upload is having issues right now. Please try later." := by
  intro h
  have h2 := congrArg (fun s => s.data.head?) h
  simp [String.data_append] at h2

/-- C10: whatever the request and the filesystem do, no response of
`uploadVideoFile` carries the message "File upload is having issues right now.
Please try later."; when `os.Create` fails, and when `io.Copy` fails, the
process exits with no response written; and what the handler writes is
nothing (process exited), the `video_id` 400, the file-field 400, or the 200. -/
theorem C10_copy_failure_branch_unreachable (cfg : Config) (env : Env) (r : Request)
    (files : List (String × List UInt8)) :
    (∀ resp ∈ (uploadVideoFile cfg env r (initial files)).state.written,
        resp.get "message" ≠
          some (.str "File upload is having issues right now. Please try later.")) ∧
      (∀ B header e, formValue r "video_id" ≠ "" → formFile r "upload" = .ok (B, header) →
        env.createFault (cfg.uploadFolderPath ++ header.Filename) = some e →
        (uploadVideoFile cfg env r (initial files)).halted = true ∧
        (uploadVideoFile cfg env r (initial files)).state.written = []) ∧
      (∀ B header n e, formValue r "video_id" ≠ "" → formFile r "upload" = .ok (B, header) →
        env.createFault (cfg.uploadFolderPath ++ header.Filename) = none →
        env.copyFault (cfg.uploadFolderPath ++ header.Filename) B = some (n, e) →
        (uploadVideoFile cfg env r (initial files)).halted = true ∧
        (uploadVideoFile cfg env r (initial files)).state.written = []) ∧
      (((uploadVideoFile cfg env r (initial files)).halted = true ∧
          (uploadVideoFile cfg env r (initial files)).state.written = []) ∨
        (uploadVideoFile cfg env r (initial files)).state.written =
          [⟨400, [("message", .str "video_id is required")]⟩] ∨
        (∃ err, (uploadVideoFile cfg env r (initial files)).state.written =
          [⟨400, [("error", .str err),
            ("message", .str "Please upload file with 'upload' form field key.")]⟩]) ∨
        (uploadVideoFile cfg env r (initial files)).state.written =
          [⟨200, [("message",
            .str ("Video file uploaded. Transcoding now: " ++ formValue r "video_id"))]⟩]) := by
  rw [uploadVideoFile_run]
  by_cases hv : formValue r "video_id" = ""
  · simp [hv, initial, Exec.state, Exec.halted, Response.get, StatusBadRequest]
  · rcases hf : formFile r "upload" with err | ⟨file, header⟩
    · simp [hv, hf, initial, Exec.state, Exec.halted, Response.get, StatusBadRequest]
    · rcases hc : env.createFault (cfg.uploadFolderPath ++ header.Filename) with _ | e
      · rcases hp : env.copyFault (cfg.uploadFolderPath ++ header.Filename) file with _ | ⟨n, e⟩
        · refine ⟨?_, ?_, ?_, ?_⟩
          · simp [hv, hf, hc, hp, initial, Exec.state, Response.get, StatusOK,
              transcoding_ne_issues]
          · rintro B header2 e _ h
            simp only [Except.ok.injEq, Prod.mk.injEq] at h
            obtain ⟨rfl, rfl⟩ := h
            simp [hc]
          · rintro B header2 n e _ h
            simp only [Except.ok.injEq, Prod.mk.injEq] at h
            obtain ⟨rfl, rfl⟩ := h
            simp [hp]
          · simp [hv, hf, hc, hp, initial, Exec.state, Exec.halted, StatusOK]
        · simp [hv, hf, hc, hp, initial, Exec.state, Exec.halted]
      · simp [hv, hf, hc, initial, Exec.state, Exec.halted]

theorem C10_copy_failure_branch_unreachable_witness :
    ((uploadVideoFile cfgSlash envCreateFault reqUpload42 (initial [])).halted = true ∧
        (uploadVideoFile cfgSlash envCreateFault reqUpload42 (initial [])).state.written = []) ∧
      ((uploadVideoFile cfgSlash envCopyFault reqUpload42 (initial [])).halted = true ∧
        (uploadVideoFile cfgSlash envCopyFault reqUpload42 (initial [])).state.written = []) :=
  ⟨(C10_copy_failure_branch_unreachable cfgSlash envCreateFault reqUpload42 []).2.1
      abc ⟨"clip.mp4", .ok abc⟩ "permission denied" (by decide) rfl rfl,
    (C10_copy_failure_branch_unreachable cfgSlash envCopyFault reqUpload42 []).2.2.1
      abc ⟨"clip.mp4", .ok abc⟩ 1 "no space left on device" (by decide) rfl rfl rfl⟩

/-! ## Claims on `createVideo`, `getVideoDetail`, `getVideoList` -/

/-- The run of `getVideoList`: one connection, one query, one response. -/
theorem getVideoList_run (cfg : Config) (env : Env) (r : Request) (s : State) :
    getVideoList cfg env r s =
      .ret () { s with
        calls := s.calls ++ [Call.GetDatabaseConnection, Call.GetVideoObjects]
        written := s.written ++
          [match env.GetVideoObjects (connectionOf cfg) with
            | .error err => ⟨StatusBadRequest, [("error", .str err)]⟩
            | .ok (count, videos) =>
              ⟨StatusOK, [("count", .int count), ("results", .videos videos)]⟩] } := by
  rcases h : env.GetVideoObjects (connectionOf cfg) with err | ⟨count, videos⟩ <;>
    simp only [connectionOf] at h <;>
    simp [getVideoList, GetDatabaseConnection, GetVideoObjects, record, JSON, h]

/-- The run of `getVideoDetail`: the value `Atoi` leaves is passed on, its error is not. -/
theorem getVideoDetail_run (cfg : Config) (env : Env) (r : Request) (s : State) :
    getVideoDetail cfg env r s =
      .ret () { s with
        calls := s.calls ++ [Call.Param "id", Call.Atoi (param r "id"),
          Call.GetDatabaseConnection, Call.GetVideoObject (strconvAtoi (param r "id")).1]
        written := s.written ++
          [match env.GetVideoObject (strconvAtoi (param r "id")).1 (connectionOf cfg) with
            | .error err => ⟨StatusBadRequest, [("error", .str err)]⟩
            | .ok video => ⟨StatusOK, [("data", .video video)]⟩] } := by
  rcases h : env.GetVideoObject (strconvAtoi (param r "id")).1 (connectionOf cfg)
    with err | video <;>
    simp only [connectionOf] at h <;>
    simp [getVideoDetail, Param, Atoi, GetDatabaseConnection, GetVideoObject, record, JSON, h]

/-- The run of `createVideo`, by cases on decoding and on persistence. -/
theorem createVideo_run (cfg : Config) (env : Env) (r : Request) (s : State) :
    createVideo cfg env r s =
      match env.BindJSON r.Body with
      | .error err =>
        .ret () { s with
          calls := s.calls ++ [Call.BindJSON]
          written := s.written ++ [⟨StatusBadRequest, [("error", .str err)]⟩] }
      | .ok video =>
        .ret () { s with
          calls := s.calls ++ [Call.BindJSON, Call.GetDatabaseConnection,
            Call.CreateVideoObject video]
          written := s.written ++
            [match env.CreateVideoObject video (connectionOf cfg) with
              | .error err => ⟨StatusBadRequest, [("error", .str err)]⟩
              | .ok created =>
                ⟨StatusOK, [("title", .str created.Title),
                  ("message",
                    .str "Object created. Please upload the file for this Video.")]⟩] } := by
  rcases hb : env.BindJSON r.Body with err | video
  · simp [createVideo, BindJSON, record, JSON, hb]
  · rcases hc : env.CreateVideoObject video (connectionOf cfg) with err | created <;>
      simp only [connectionOf] at hc <;>
      simp [createVideo, BindJSON, GetDatabaseConnection, CreateVideoObject, record, JSON, hb, hc,
        connectionOf]

/-- C5: `createVideo` writes a 200 exactly when the body decodes into a Video
and `CreateVideoObject` returns no error; the body is then `title` = the title
of the record the persistence layer returned and `message` = "Object created.
Please upload the file for this Video.".  When decoding fails the response is
400 with `error` = the decode error and the only call made is the decoding;
when persistence fails the response is 400 with `error` = its error. -/
theorem C5_create_video (cfg : Config) (env : Env) (r : Request)
    (files : List (String × List UInt8)) :
    ((∃ resp ∈ (createVideo cfg env r (initial files)).state.written, resp.status = 200) ↔
        ∃ video created, env.BindJSON r.Body = .ok video ∧
          env.CreateVideoObject video (connectionOf cfg) = .ok created) ∧
      (∀ video created, env.BindJSON r.Body = .ok video →
        env.CreateVideoObject video (connectionOf cfg) = .ok created →
        (createVideo cfg env r (initial files)).state.written =
          [⟨200, [("title", .str created.Title),
            ("message", .str "Object created. Please upload the file for this Video.")]⟩]) ∧
      (∀ err, env.BindJSON r.Body = .error err →
        (createVideo cfg env r (initial files)).state.written =
          [⟨400, [("error", .str err)]⟩] ∧
        (createVideo cfg env r (initial files)).state.calls = [Call.BindJSON]) ∧
      (∀ video err, env.BindJSON r.Body = .ok video →
        env.CreateVideoObject video (connectionOf cfg) = .error err →
        (createVideo cfg env r (initial files)).state.written =
          [⟨400, [("error", .str err)]⟩]) := by
  rw [createVideo_run]
  refine ⟨?_, ?_, ?_, ?_⟩
  · rcases hb : env.BindJSON r.Body with err | video
    · simp [initial, Exec.state, StatusBadRequest]
    · rcases hc : env.CreateVideoObject video (connectionOf cfg) with err | created
      · simp [hc, initial, Exec.state, StatusBadRequest]
      · simp [hc, initial, Exec.state, StatusOK]
  · intro video created hb hc
    simp [hb, hc, initial, Exec.state, StatusOK]
  · intro err hb
    simp [hb, initial, Exec.state, StatusBadRequest]
  · intro video err hb hc
    simp [hb, hc, initial, Exec.state, StatusBadRequest]

theorem C5_create_video_witness :
    (createVideo cfgSlash envDemo (reqCreate "\x7b\"title\":\"demo\"\x7d") (initial [])).state.written =
      [⟨200, [("title", .str "demo"),
        ("message", .str "Object created. Please upload the file for this Video.")]⟩] :=
  (C5_create_video cfgSlash envDemo (reqCreate "\x7b\"title\":\"demo\"\x7d") []).2.1
    ⟨0, "demo"⟩ ⟨2, "demo"⟩ rfl rfl

/-- C6: when `GetVideoObject` returns an error for the identifier, the one
response of `getVideoDetail` is a 400 whose body is `error` = that error's
message, with no `data` entry; a 200 is written only when `GetVideoObject`
returned a record without error, and its `data` is that record. -/
theorem C6_detail_missing_record (cfg : Config) (env : Env) (r : Request)
    (files : List (String × List UInt8)) :
    (∀ msg, env.GetVideoObject (strconvAtoi (param r "id")).1 (connectionOf cfg) = .error msg →
        (getVideoDetail cfg env r (initial files)).state.written =
          [⟨400, [("error", .str msg)]⟩] ∧
        (∀ resp ∈ (getVideoDetail cfg env r (initial files)).state.written,
          resp.status = 400 ∧ resp.get "error" = some (.str msg) ∧ resp.get "data" = none)) ∧
      (∀ resp ∈ (getVideoDetail cfg env r (initial files)).state.written, resp.status = 200 →
        ∃ video, env.GetVideoObject (strconvAtoi (param r "id")).1 (connectionOf cfg) = .ok video ∧
          resp = ⟨200, [("data", .video video)]⟩) := by
  rw [getVideoDetail_run]
  rcases h : env.GetVideoObject (strconvAtoi (param r "id")).1 (connectionOf cfg)
    with err | video
  · simp [initial, Exec.state, StatusBadRequest, Response.get]
  · simp [initial, Exec.state, StatusOK]

theorem C6_detail_missing_record_witness :
    strconvAtoi (param (reqDetail "9999999") "id") = (9999999, none) ∧
      (getVideoDetail cfgSlash envDemo (reqDetail "9999999") (initial [])).state.written =
        [⟨400, [("error", .str "pg: no rows in result set")]⟩] :=
  ⟨by decide,
    ((C6_detail_missing_record cfgSlash envDemo (reqDetail "9999999") []).1
      "pg: no rows in result set" rfl).1⟩

/-- C7: the one response of `getVideoList` is fixed by the result of
`GetVideoObjects`: 400 with `error` = the error's message on an error, 200
with `count` and `results` = the records as returned (same order, none
dropped) on success; so two list calls that get the same result from the
persistence layer write the same response. -/
theorem C7_list_response (cfg : Config) (env : Env) (r : Request)
    (files : List (String × List UInt8)) :
    (∀ err, env.GetVideoObjects (connectionOf cfg) = .error err →
        (getVideoList cfg env r (initial files)).state.written =
          [⟨400, [("error", .str err)]⟩]) ∧
      (∀ count videos, env.GetVideoObjects (connectionOf cfg) = .ok (count, videos) →
        (getVideoList cfg env r (initial files)).state.written =
          [⟨200, [("count", .int count), ("results", .videos videos)]⟩]) ∧
      (∀ (cfg2 : Config) (env2 : Env) (r2 : Request) (files2 : List (String × List UInt8)),
        env2.GetVideoObjects (connectionOf cfg2) = env.GetVideoObjects (connectionOf cfg) →
        (getVideoList cfg2 env2 r2 (initial files2)).state.written =
          (getVideoList cfg env r (initial files)).state.written) := by
  refine ⟨?_, ?_, ?_⟩
  · intro err h
    rw [getVideoList_run, h]
    simp [initial, Exec.state, StatusBadRequest]
  · intro count videos h
    rw [getVideoList_run, h]
    simp [initial, Exec.state, StatusOK]
  · intro cfg2 env2 r2 files2 h
    rw [getVideoList_run, getVideoList_run, h]
    simp [initial, Exec.state]

theorem C7_list_response_witness :
    (getVideoList cfgSlash envDemo reqList (initial [])).state.written =
        [⟨200, [("count", .int 1), ("results", .videos [⟨1, "demo"⟩])]⟩] ∧
      (getVideoList cfgSlash envDown reqList (initial [])).state.written =
        [⟨400, [("error", .str "connection refused")]⟩] ∧
      (getVideoList cfgNoSlash envDemo reqList (initial [])).state.written =
        (getVideoList cfgSlash envDemo reqList (initial [])).state.written :=
  ⟨(C7_list_response cfgSlash envDemo reqList []).2.1 1 [⟨1, "demo"⟩] rfl,
    (C7_list_response cfgSlash envDown reqList []).1 "connection refused" rfl,
    (C7_list_response cfgSlash envDemo reqList []).2.2 cfgNoSlash envDemo reqList [] rfl⟩

/-! ## `strconv.Atoi`: what a failed parse leaves -/

theorem parseUintLoop_failed (cs : List Char) (n : Nat) (e : NumError)
    (h : (parseUintLoop cs n).2 = some e) :
    (e = .ErrSyntax ∧ (parseUintLoop cs n).1 = 0) ∨
      (e = .ErrRange ∧ (parseUintLoop cs n).1 = maxUint64) := by
  induction cs generalizing n with
  | nil => simp [parseUintLoop] at h
  | cons c cs ih =>
    rw [parseUintLoop] at h ⊢
    by_cases h1 : '0' ≤ c ∧ c ≤ '9'
    · rw [if_pos h1] at h ⊢
      by_cases h2 : n ≥ maxUint64 / 10 + 1
      · rw [if_pos h2] at h ⊢
        right; exact ⟨by simpa using h.symm, rfl⟩
      · rw [if_neg h2] at h ⊢
        simp only at h ⊢
        by_cases h3 : n * 10 + (c.toNat - '0'.toNat) > maxUint64
        · rw [if_pos h3] at h ⊢
          right; exact ⟨by simpa using h.symm, rfl⟩
        · rw [if_neg h3] at h ⊢
          exact ih _ h
    · rw [if_neg h1] at h ⊢
      left; exact ⟨by simpa using h.symm, rfl⟩

theorem ParseUint_failed (cs : List Char) (e : NumError) (h : (ParseUint cs).2 = some e) :
    (e = .ErrSyntax ∧ (ParseUint cs).1 = 0) ∨ (e = .ErrRange ∧ (ParseUint cs).1 = maxUint64) := by
  cases cs with
  | nil => left; exact ⟨by simpa [ParseUint] using h.symm, rfl⟩
  | cons c cs => exact parseUintLoop_failed (c :: cs) 0 e h

/-- A failed `Atoi` leaves 0 on a malformed string, and the largest or the
smallest `int` on a value out of range. -/
theorem strconvAtoi_failed (s : String) (e : NumError) (h : (strconvAtoi s).2 = some e) :
    (e = .ErrSyntax ∧ (strconvAtoi s).1 = 0) ∨
      (e = .ErrRange ∧
        ((strconvAtoi s).1 = 9223372036854775807 ∨ (strconvAtoi s).1 = -9223372036854775808)) := by
  unfold strconvAtoi at h ⊢
  cases hs : s.toList with
  | nil => left; rw [hs] at h; exact ⟨by simpa [ParseInt] using h.symm, rfl⟩
  | cons c rest =>
    rw [hs] at h
    simp only [ParseInt] at h ⊢
    split at h
    · left; exact ⟨by simpa using h.symm, rfl⟩
    · split_ifs at h ⊢ with h1 h2 h3
      · right; exact ⟨by simpa using h.symm, Or.inl (by norm_num)⟩
      · right; exact ⟨by simpa using h.symm, Or.inr (by norm_num)⟩

/-- C9, as stated, fails: over a store that holds a record under identifier
0, the malformed id `abc` gets a 200 carrying that record, not a 400. -/
theorem C9_counterexample :
    (strconvAtoi (param (reqDetail "abc") "id")).2 = some .ErrSyntax ∧
      (getVideoDetail cfgSlash envZero (reqDetail "abc") (initial [])).state.calls =
        [Call.Param "id", Call.Atoi "abc", Call.GetDatabaseConnection, Call.GetVideoObject 0] ∧
      (getVideoDetail cfgSlash envZero (reqDetail "abc") (initial [])).state.written =
        [⟨200, [("data", .video ⟨0, "zero"⟩)]⟩] := by
  decide

/-- C9 (amended): when the path parameter `id` does not parse as an integer,
`getVideoDetail` makes the same four calls as for any request, `GetVideoObject`
being called with the value the failed parse left (0 for a malformed string,
the largest or smallest `int` for one out of range); its one response is the
400 carrying the persistence error when `GetVideoObject` fails for that value
and the 200 carrying the record when it returns one; that response is the one
every well-formed request for the same integer gets, and such a request
exists. -/
theorem C9_detail_malformed_id (cfg : Config) (env : Env) (r : Request)
    (files : List (String × List UInt8)) (e : NumError)
    (h : (strconvAtoi (param r "id")).2 = some e) :
    (getVideoDetail cfg env r (initial files)).state.calls =
        [Call.Param "id", Call.Atoi (param r "id"), Call.GetDatabaseConnection,
          Call.GetVideoObject (strconvAtoi (param r "id")).1] ∧
      (e = .ErrSyntax → (strconvAtoi (param r "id")).1 = 0) ∧
      (e = .ErrRange → (strconvAtoi (param r "id")).1 = 9223372036854775807 ∨
        (strconvAtoi (param r "id")).1 = -9223372036854775808) ∧
      (∀ msg, env.GetVideoObject (strconvAtoi (param r "id")).1 (connectionOf cfg) = .error msg →
        (getVideoDetail cfg env r (initial files)).state.written =
          [⟨400, [("error", .str msg)]⟩]) ∧
      (∀ video, env.GetVideoObject (strconvAtoi (param r "id")).1 (connectionOf cfg) = .ok video →
        (getVideoDetail cfg env r (initial files)).state.written =
          [⟨200, [("data", .video video)]⟩]) ∧
      (∀ r2 : Request, strconvAtoi (param r2 "id") = ((strconvAtoi (param r "id")).1, none) →
        (getVideoDetail cfg env r2 (initial files)).state.written =
          (getVideoDetail cfg env r (initial files)).state.written) ∧
      (∃ r2 : Request, strconvAtoi (param r2 "id") = ((strconvAtoi (param r "id")).1, none)) := by
  refine ⟨?_, ?_, ?_, ?_, ?_, ?_, ?_⟩
  · rw [getVideoDetail_run]
    simp [initial, Exec.state]
  · intro he
    rcases strconvAtoi_failed _ e h with ⟨_, h0⟩ | ⟨h1, _⟩
    · exact h0
    · rw [he] at h1
      cases h1
  · intro he
    rcases strconvAtoi_failed _ e h with ⟨h0, _⟩ | ⟨_, h1⟩
    · rw [he] at h0
      cases h0
    · exact h1
  · intro msg hm
    rw [getVideoDetail_run, hm]
    simp [initial, Exec.state, StatusBadRequest]
  · intro video hm
    rw [getVideoDetail_run, hm]
    simp [initial, Exec.state, StatusOK]
  · intro r2 h2
    rw [getVideoDetail_run, getVideoDetail_run, h2]
    simp [initial, Exec.state]
  · rcases strconvAtoi_failed _ e h with ⟨_, h0⟩ | ⟨_, h1 | h1⟩
    · exact ⟨reqDetail "0", by rw [h0]; decide⟩
    · exact ⟨reqDetail "9223372036854775807", by rw [h1]; decide⟩
    · exact ⟨reqDetail "-9223372036854775808", by rw [h1]; decide⟩

theorem C9_detail_malformed_id_witness :
    (strconvAtoi (param (reqDetail "abc") "id")).2 = some .ErrSyntax ∧
      (getVideoDetail cfgSlash envDemo (reqDetail "abc") (initial [])).state.calls =
        [Call.Param "id", Call.Atoi "abc", Call.GetDatabaseConnection, Call.GetVideoObject 0] ∧
      (getVideoDetail cfgSlash envDemo (reqDetail "abc") (initial [])).state.written =
        [⟨400, [("error", .str "pg: no rows in result set")]⟩] ∧
      (getVideoDetail cfgSlash envDemo (reqDetail "99999999999999999999") (initial [])).state.calls =
        [Call.Param "id", Call.Atoi "99999999999999999999", Call.GetDatabaseConnection,
          Call.GetVideoObject 9223372036854775807] ∧
      (getVideoDetail cfgSlash envDemo (reqDetail "0") (initial [])).state.written =
        (getVideoDetail cfgSlash envDemo (reqDetail "abc") (initial [])).state.written :=
  ⟨by decide,
    (C9_detail_malformed_id cfgSlash envDemo (reqDetail "abc") [] .ErrSyntax (by decide)).1,
    (C9_detail_malformed_id cfgSlash envDemo (reqDetail "abc") [] .ErrSyntax
      (by decide)).2.2.2.1 "pg: no rows in result set" rfl,
    (C9_detail_malformed_id cfgSlash envDemo (reqDetail "99999999999999999999") [] .ErrRange
      (by decide)).1,
    (C9_detail_malformed_id cfgSlash envDemo (reqDetail "abc") [] .ErrSyntax
      (by decide)).2.2.2.2.2.1 (reqDetail "0") (by decide)⟩

end VideoBackendApi
